import Mathlib

/-!
Verification of the followers_tracker data-acquisition layer.

The Python sources are embedded shallowly:

* Python scalar values that flow through envelopes and form maps are modelled
  by `PyVal` (`None`, `int`, `str`).
* Python dicts whose key sets matter (Kit per-pull results, form maps) are
  modelled as association lists `List (String × PyVal)` in insertion order.
* The regex engine (`re.search` / `re.findall`) is an external library and is
  modelled as an oracle: for a fixed page content, `search : String → Option
  String` yields group(1) of the first match for a pattern, and
  `findall : String → List String` yields, in document order, every
  non-overlapping captured group of a match.  The ranked-pattern loops around
  those calls are embedded verbatim.
* HTTP responses are inputs: a constructor per outcome the Python code
  distinguishes (network error, unexpected error, a response with a status
  code and a parsed body shape).
* `time.sleep` calls are logged: functions return the list of slept
  durations (in seconds) next to their result.
* A Python function that can raise returns `Except`.
-/

/-- A Python scalar value as it appears in envelopes and form maps. -/
inductive PyVal where
  | vNone : PyVal
  | vInt : Int → PyVal
  | vStr : String → PyVal
  deriving DecidableEq, Repr

namespace PyVal

/-- Python truthiness for the values we model: `None`, `0` and `""` are falsy. -/
def truthy : PyVal → Bool
  | vNone => false
  | vInt n => n ≠ 0
  | vStr s => s ≠ ""

/-- Whether the value is an integer. -/
def isInt : PyVal → Bool
  | vInt _ => true
  | _ => false

/-- Python `==` against a string literal: only a `str` can equal a `str`. -/
def eqStr (v : PyVal) (s : String) : Bool :=
  match v with
  | vStr t => t = s
  | _ => false

end PyVal

/-- A Python dict with string keys, in insertion order. -/
abbrev PyDict := List (String × PyVal)

/-- Lookup `d.get(k)` / `d[k]`: first binding wins (keys are unique in all
dicts the code builds). -/
def PyDict.get? (d : PyDict) (k : String) : Option PyVal :=
  (d.find? (fun p => p.1 = k)).map (·.2)

/-- Lookup `d.get(k)` with the Python default `None`. -/
def PyDict.getD (d : PyDict) (k : String) : PyVal :=
  (d.get? k).getD PyVal.vNone

/-- The key list of a dict, in insertion order. -/
def PyDict.keys (d : PyDict) : List String := d.map (·.1)

/-- Membership test `k in d`. -/
def PyDict.hasKey (d : PyDict) (k : String) : Bool := (d.get? k).isSome

/- ### Python string helpers

The Python code manipulates captured regex groups with
replace-comma-by-nothing, strip, isdigit and int(...).  These are
modelled character-exactly over ASCII inputs (the only inputs the regexes
can produce). -/

/-- Model of s.replace of a comma by nothing: drop every comma. -/
def stripCommas (s : String) : String :=
  String.mk (s.data.filter (fun c => c ≠ ','))

/-- Model of `s.strip()`: drop leading and trailing whitespace. -/
def pyStrip (s : String) : String :=
  String.mk (((s.data.dropWhile Char.isWhitespace).reverse.dropWhile
    Char.isWhitespace).reverse)

/-- Model of `s.isdigit()`: non-empty and all digits. -/
def pyIsDigit (s : String) : Bool :=
  !s.data.isEmpty && s.data.all Char.isDigit

/-- Numeric value of a digit string. -/
def digitsToNat (cs : List Char) : Nat :=
  cs.foldl (fun acc c => 10 * acc + (c.toNat - '0'.toNat)) 0

/-- Python `int(s)`: optional surrounding whitespace, optional sign, then a
non-empty digit run; anything else raises `ValueError` (here: `none`). -/
def pyInt (s : String) : Option Int :=
  let t := (pyStrip s).data
  match t with
  | '+' :: rest => if rest.isEmpty || !rest.all Char.isDigit then none
      else some (digitsToNat rest)
  | '-' :: rest => if rest.isEmpty || !rest.all Char.isDigit then none
      else some (-(digitsToNat rest : Int))
  | _ => if t.isEmpty || !t.all Char.isDigit then none
      else some (digitsToNat t)

/- ### Extraction strategies (ranked pattern lists)

`services/linkedin_profile.py  LinkedInProfileAdvancedService._extract_followers_from_content`
`services/linkedin_company.py  LinkedInCompanyService._extract_followers`
`services/linkedin_newsletter.py  LinkedInNewsletterService._extract_subscribers`
`services/default_instagram.py  InstagramService._get_followers_from_scraping` (pattern loop)

Each extractor fixes a ranked list of regex patterns (copied verbatim below)
and loops over them against one page content.  The page content appears only
through the regex engine, so each extractor is parameterised by the oracle
described in the header. -/

/-- The eight patterns of `linkedin_profile.py` lines 244-258, in order. -/
def linkedinProfilePatterns : List String := [
  "\"name\":\"Follows\",\"userInteractionCount\":(\\d+)",
  "followerCount\":(\\d+)",
  "\"followerCount\":(\\d+)",
  "(\\d+,?\\d*)\\s+followers",
  "(\\d+,?\\d*)\\s+Followers",
  ">(\\d+,?\\d*)</span>\\s*<span>followers",
  "follower[s]?\" ?:? ?[\"\\\x27]?(\\d+,?\\d*)",
  "connections?[\"\\\x27]?:(\\d+,?\\d*)"]

/-- The four patterns of `linkedin_company.py` lines 128-133, in order. -/
def linkedinCompanyPatterns : List String := [
  "(\\d+,?\\d*)\\s+followers",
  "followerCount&quot;:(\\d+)",
  "followerCount\":(\\d+)",
  "(\\d+,?\\d*)\\s*follower"]

/-- The six patterns of `linkedin_newsletter.py` lines 100-107, in order. -/
def linkedinNewsletterPatterns : List String := [
  "([\\d,]+)\\s+followers",
  "([\\d,]+)\\s+subscribers",
  "subscribers&quot;:&quot;([\\d,]+)&quot;",
  "subscriberCount&quot;:&quot;([\\d,]+)&quot;",
  "subscriberCount\":\"([\\d,]+)\"",
  "followerCount\":\"([\\d,]+)\""]

/-- The four patterns of `default_instagram.py` lines 367-372, in order. -/
def instagramContentPatterns : List String := [
  "\"follower_count\":(\\d+)",
  "\"edge_followed_by\":\x7b\"count\":(\\d+)\x7d",
  "([\\d,]+)\\s+followers",
  "Followers</span><span[^>]*>([^<]+)"]

/-- Loop of `linkedin_profile.py` lines 260-270: for each pattern in order,
`re.search`; on a match, strip commas and `int(...)`; a `ValueError`
(`except ValueError: continue`) moves on to the NEXT PATTERN. -/
def profileTryPatterns (search : String → Option String) :
    List String → Option Int
  | [] => none
  | p :: rest =>
    match search p with
    | none => profileTryPatterns search rest
    | some s =>
      match pyInt (stripCommas s) with
      | some n => some n
      | none => profileTryPatterns search rest

/-- Embedding of `LinkedInProfileAdvancedService._extract_followers_from_content`. -/
def extractFollowersFromContent (search : String → Option String) : Option Int :=
  profileTryPatterns search linkedinProfilePatterns

/-- Pattern loop of `linkedin_company.py` / `linkedin_newsletter.py`: for each
pattern in order, `re.search`; on a match, strip commas and `int(...)` with
NO `ValueError` guard — a failing parse raises out of the extractor. -/
def unguardedTryPatterns (search : String → Option String) :
    List String → Except String (Option Int)
  | [] => .ok none
  | p :: rest =>
    match search p with
    | none => unguardedTryPatterns search rest
    | some s =>
      match pyInt (stripCommas s) with
      | some n => .ok (some n)
      | none => .error "ValueError: invalid literal for int"

/-- Embedding of `LinkedInCompanyService._extract_followers`. -/
def extractCompanyFollowers (search : String → Option String) :
    Except String (Option Int) :=
  unguardedTryPatterns search linkedinCompanyPatterns

/-- Embedding of `LinkedInNewsletterService._extract_subscribers`. -/
def extractNewsletterSubscribers (search : String → Option String) :
    Except String (Option Int) :=
  unguardedTryPatterns search linkedinNewsletterPatterns

/-- Inner loop over one pattern in `default_instagram.py` lines 374-383:
scan ALL matches (`re.findall`) in order and take the first whose text,
comma-stripped and stripped, `isdigit()`. -/
def instaScanMatches (ms : List String) : Option Nat :=
  ms.findSome? (fun m =>
    let t := pyStrip (stripCommas m)
    if pyIsDigit t then some (digitsToNat t.data) else none)

/-- Pattern loop of `default_instagram.py` lines 374-385.  `follower_count`
starts as `None`; the scan of a pattern overwrites it when it finds a digit match;
the loop breaks only when the current value is TRUTHY (`if follower_count:`),
so a parsed `0` does not stop the loop. -/
def instaPatternLoop (findall : String → List String) :
    List String → Option Nat → Option Nat
  | [], acc => acc
  | p :: rest, acc =>
    let acc' := match instaScanMatches (findall p) with
      | some n => some n
      | none => acc
    if acc' = some 0 ∨ acc' = none then instaPatternLoop findall rest acc'
    else acc'

/-- The pattern-extraction fallback of
`InstagramService._get_followers_from_scraping` (`default_instagram.py`). -/
def instaExtractFromContent (findall : String → List String) : Option Nat :=
  instaPatternLoop findall instagramContentPatterns none

/- ### Extraction semantics of the spec (for comparison)

Modelled from the words of the spec, for the refinement comparison: "the first
pattern that matches AND whose captured text parses as a valid integer (after
stripping thousands separators) wins; ... If a pattern matches but the
captured group fails to parse as an integer, that single match is discarded
and the next pattern is tried (not the next match of the same pattern)". -/

/-- Spec semantics over a `re.search`-style oracle. -/
def specRankedExtract (search : String → Option String) (ps : List String) :
    Option Int :=
  ps.findSome? (fun p => (search p).bind (fun s => pyInt (stripCommas s)))

/-- Spec semantics over a `re.findall`-style oracle: only the FIRST match of
each pattern may be consulted, with the `isdigit` parse the Instagram code
uses. -/
def specRankedExtractFindall (findall : String → List String)
    (ps : List String) : Option Nat :=
  ps.findSome? (fun p => (findall p).head?.bind (fun m =>
    let t := pyStrip (stripCommas m)
    if pyIsDigit t then some (digitsToNat t.data) else none))

/- ### Twitter service (`services/twitter.py`)

`TwitterService.get_followers(retry_on_failure)` makes one request per call;
every failure of the first call sleeps 900 s and recurses once with
`retry_on_failure=False`.  The outcome of the request is an input. -/

/-- One Twitter HTTP attempt, as the code distinguishes outcomes.
`response` carries the status code, the `x-rate-limit-reset` header (with
the default string unknown used by the code), `response.text`, and the parsed body:
`none` when `"data"`/`"public_metrics"` is missing, otherwise the
the `followers_count` entry of the `public_metrics` object (absent or any JSON
value). -/
inductive TwAttempt where
  | netError (msg : String)
  | unexpected (msg : String)
  | response (status : Nat) (resetHeader : String) (text : String)
      (metrics : Option (Option PyVal))
  deriving Repr

/-- The exceptions `get_followers` can raise. -/
inductive TwError where
  | rateLimit (msg : String)
  | api (status : Nat) (msg : String)
  deriving DecidableEq, Repr

/-- The Twitter success envelope (`twitter.py` lines 101-107).  `raw_metrics`
is the `public_metrics` object, kept as its `followers_count` entry. -/
structure TwEnvelope where
  platform : String
  username : String
  followers : PyVal
  timestamp : Int
  raw_metrics : Option (Option PyVal) := none
  error : Option String := none
  deriving Repr

/-- Classification of a single attempt by the branch order of `get_followers`. -/
inductive TwStep where
  | ok (env : TwEnvelope)
  | rate (msg : String)
  | apiErr (status : Nat) (msg : String)
  | noData
  | net (msg : String)
  | other (msg : String)
  deriving Repr

/-- One pass of the body of `get_followers` over an attempt outcome (the branches
at `twitter.py` lines 68, 82, 97, 108, 126, 149). -/
def twStep (username : String) (ts : Int) (a : TwAttempt) : TwStep :=
  match a with
  | .netError msg =>
      .net ("Network error when fetching Twitter data: " ++ msg)
  | .unexpected msg =>
      .other ("Unexpected error fetching Twitter data: " ++ msg)
  | .response status reset text metrics =>
    if status = 429 then
      .rate ("Twitter API rate limit exceeded. Reset at: " ++ reset)
    else if status ≠ 200 then
      .apiErr status ("Twitter API returned error: " ++ toString status
        ++ " - " ++ text)
    else
      match metrics with
      | none => .noData
      | some followers? =>
        .ok { platform := "Twitter", username := username,
              followers := followers?.getD (.vInt 0), timestamp := ts,
              raw_metrics := some followers? }

/-- The "Not Found" envelope the no-retry call returns on a non-raising
failure. -/
def twNotFoundEnvelope (username : String) (ts : Int) (msg : String) :
    TwEnvelope :=
  { platform := "Twitter", username := username,
    followers := .vStr "Not Found", timestamp := ts, error := some msg }

/-- Embedding of `get_followers(retry_on_failure=False)`: one attempt, no sleep. -/
def twGetFollowersNoRetry (username : String) (ts : Int) (a : TwAttempt) :
    Except TwError TwEnvelope :=
  match twStep username ts a with
  | .ok env => .ok env
  | .rate msg => .error (.rateLimit msg)
  | .apiErr status msg => .error (.api status msg)
  | .noData => .ok (twNotFoundEnvelope username ts "No follower data in response")
  | .net msg => .ok (twNotFoundEnvelope username ts msg)
  | .other msg => .ok (twNotFoundEnvelope username ts msg)

/-- Embedding of `get_followers(retry_on_failure=True)` (the entry point): on ANY failure
of the first attempt, `time.sleep(900)` and recurse once.  Returns the
result or raised error, the list of slept durations, and the number of API
requests made. -/
def twGetFollowers (username : String) (ts : Int) (a1 a2 : TwAttempt) :
    Except TwError TwEnvelope × List Nat × Nat :=
  match twStep username ts a1 with
  | .ok env => (.ok env, [], 1)
  | _ => (twGetFollowersNoRetry username ts a2, [900], 2)

/- ### Kit service (`services/kit.py`) -/

/-- The three time ranges `_pull_stats` accepts. -/
inductive KitRange where
  | daily
  | weekly
  | monthly
  deriving DecidableEq, Repr

/-- The `time_range` string of a range. -/
def KitRange.name : KitRange → String
  | .daily => "daily"
  | .weekly => "weekly"
  | .monthly => "monthly"

/-- Seconds in a day / an hour. -/
def secPerDay : Int := 86400

/-- The calendar day (as a day number) a timestamp in seconds falls on;
`strftime("%Y-%m-%d...")` keeps exactly this. -/
def dayOf (t : Int) : Int := t / secPerDay

/-- A formatted window boundary: the day of the datetime being formatted and
the fixed time-of-day (seconds) the format string hard-codes, in +01:00. -/
structure KitBoundary where
  day : Int
  secOfDay : Nat
  deriving DecidableEq, Repr

/-- Window computation of `kit.py` lines 97-114: `today = now + 1h`; the per-range start/end
datetimes; formatting pins the start time to `00:00:00` and the end time to
`23:59:59` (offset `+01:00`). -/
def kitWindow (now : Int) (range : KitRange) : KitBoundary × KitBoundary :=
  let today := now + 3600
  let (startDate, endDate) :=
    match range with
    | .daily => (today - secPerDay, today - secPerDay)
    | .weekly => (today - 7 * secPerDay, today - secPerDay)
    | .monthly => (today - 30 * secPerDay, today - secPerDay)
  (⟨dayOf startDate, 0⟩, ⟨dayOf endDate, 86399⟩)

/-- The `"stats"` object of a Kit 200 response: each counter key present
(with an integer value) or absent. -/
structure KitStatsObj where
  subscribers : Option Int := none
  cancellations : Option Int := none
  net_new_subscribers : Option Int := none
  new_subscribers : Option Int := none
  deriving Repr

/-- One Kit HTTP attempt.  On a response, `body` is the `"stats"` entry of the parsed JSON (`data.get("stats", {})` treats an absent one as empty). -/
inductive KitAttempt where
  | netError (msg : String)
  | unexpected (msg : String)
  | response (status : Nat) (text : String) (body : Option KitStatsObj)
  deriving Repr

/-- The exceptions `_pull_stats` re-raises (lines 130-138, 159-161). -/
inductive KitError where
  | rateLimit (msg : String)
  | api (status : Nat) (msg : String)
  deriving DecidableEq, Repr

/-- Model of str(e) for a Kit exception: the message it was constructed with. -/
def KitError.msg : KitError → String
  | .rateLimit m => m
  | .api _ m => m

/-- Success dict of `_pull_stats` (lines 146-154). -/
def kitSuccessDict (range : KitRange) (ts : Int) (stats : KitStatsObj) :
    PyDict :=
  [("platform", .vStr "Kit"),
   ("time_range", .vStr range.name),
   ("subscribers", .vInt (stats.subscribers.getD 0)),
   ("cancellations", .vInt (stats.cancellations.getD 0)),
   ("net_new_subscribers", .vInt (stats.net_new_subscribers.getD 0)),
   ("new_subscribers", .vInt (stats.new_subscribers.getD 0)),
   ("timestamp", .vInt ts)]

/-- The "Not Found" dict `_pull_stats` returns for network/unexpected errors
(lines 167-176, 182-191). -/
def kitNotFoundDict (range : KitRange) (ts : Int) (msg : String) : PyDict :=
  [("platform", .vStr "Kit"),
   ("time_range", .vStr range.name),
   ("subscribers", .vStr "Not Found"),
   ("cancellations", .vStr "Not Found"),
   ("net_new_subscribers", .vStr "Not Found"),
   ("new_subscribers", .vStr "Not Found"),
   ("timestamp", .vInt ts),
   ("error", .vStr msg)]

/-- Embedding of `KitService._pull_stats` over an attempt outcome: raises on 429 and on
any other non-200 status; absorbs network and unexpected errors into a
"Not Found" dict; on 200 reads each counter with `.get(key, 0)`. -/
def kitPullStats (range : KitRange) (ts : Int) (a : KitAttempt) :
    Except KitError PyDict :=
  match a with
  | .netError msg =>
      .ok (kitNotFoundDict range ts
        ("Network error when fetching Kit data: " ++ msg))
  | .unexpected msg =>
      .ok (kitNotFoundDict range ts
        ("Unexpected error fetching Kit data: " ++ msg))
  | .response status text body =>
    if status = 429 then
      .error (.rateLimit "Kit API rate limit exceeded")
    else if status ≠ 200 then
      .error (.api status ("Kit API returned error: " ++ toString status
        ++ " - " ++ text))
    else
      .ok (kitSuccessDict range ts (body.getD {}))

/-- The fallback dict `get_all_stats` builds per range when any pull raises
(`kit.py` lines 213-217): ONLY the keys `"error"` and `"subscribers"`. -/
def kitFallbackDict (e : KitError) : PyDict :=
  [("error", .vStr e.msg), ("subscribers", .vStr "Not Found")]

/-- Embedding of `KitService.get_all_stats`: pulls daily, then weekly, then monthly; the
first raise short-circuits into the fallback triple.  Also returns the list
of ranges actually pulled. -/
def kitGetAllStats (ts : Int) (aDaily aWeekly aMonthly : KitAttempt) :
    (PyDict × PyDict × PyDict) × List KitRange :=
  match kitPullStats .daily ts aDaily with
  | .error e => ((kitFallbackDict e, kitFallbackDict e, kitFallbackDict e),
      [.daily])
  | .ok d =>
    match kitPullStats .weekly ts aWeekly with
    | .error e => ((kitFallbackDict e, kitFallbackDict e, kitFallbackDict e),
        [.daily, .weekly])
    | .ok w =>
      match kitPullStats .monthly ts aMonthly with
      | .error e => ((kitFallbackDict e, kitFallbackDict e, kitFallbackDict e),
          [.daily, .weekly, .monthly])
      | .ok m => ((d, w, m), [.daily, .weekly, .monthly])

/- ### Instagram service (`services/instagram.py`, the implementation
`main.py` imports) -/

/-- The body of an Instagram third-party-API 200 response:
`json.loads(response.text)` either raises (`jsonError`) or yields an object
whose `"user_followers"` entry is absent or any JSON value. -/
inductive IgBody where
  | jsonError (msg : String)
  | json (userFollowers : Option PyVal)
  deriving Repr

/-- One Instagram API attempt. -/
inductive IgAttempt where
  | netError (msg : String)
  | unexpected (msg : String)
  | response (status : Nat) (text : String) (body : IgBody)
  deriving Repr

/-- The `{"success": ..., ...}` result of the two private Instagram helpers:
either a followers value or an error string. -/
inductive IgResult where
  | success (followers : PyVal)
  | failure (error : String)
  deriving Repr

/-- Model of `str(v)` for the JSON scalars we model (used by
`str(followers_count).isdigit()`). -/
def pyStr : PyVal → String
  | .vNone => "None"
  | .vInt n => toString n
  | .vStr s => s

/-- Embedding of `InstagramService._get_followers_from_api` (`instagram.py` lines 68-132):
on 200 and valid JSON, `followers_count = data.get("user_followers")`; it is
accepted when truthy and not the string `"Not Found"`, and is converted with
`int(...)` ONLY when `str(...)` is all digits — otherwise the raw value is
returned in a success result. -/
def igGetFollowersFromApi (a : IgAttempt) : IgResult :=
  match a with
  | .netError msg =>
      .failure ("Request error when fetching from API: " ++ msg)
  | .unexpected msg =>
      .failure ("Unexpected error when fetching from API: " ++ msg)
  | .response status text body =>
    if status ≠ 200 then
      .failure ("Instagram API returned error: " ++ toString status
        ++ " - " ++ text)
    else
      match body with
      | .jsonError msg => .failure ("Failed to parse API response: " ++ msg)
      | .json userFollowers =>
        let followersCount := userFollowers.getD .vNone
        if followersCount.truthy && !followersCount.eqStr "Not Found" then
          .success (if pyIsDigit (pyStr followersCount) then
              .vInt (digitsToNat (pyStr followersCount).data)
            else followersCount)
        else .failure "Invalid follower count from API"

/-- The Instagram acquirer envelope. -/
structure IgEnvelope where
  platform : String
  username : String
  followers : PyVal
  timestamp : Int
  source : Option String := none
  error : Option String := none
  deriving Repr

/-- The success envelope `get_followers` wraps a helper result in. -/
def igSuccessEnvelope (username : String) (ts : Int) (followers : PyVal)
    (source : String) : IgEnvelope :=
  { platform := "Instagram", username := username, followers := followers,
    timestamp := ts, source := some source }

/-- The retry loop of `InstagramService.get_followers` (lines 257-292): per
round one scraping attempt then (after a wait of `120 * 2^retry_count`
seconds) one API attempt.  The scraping result is an input — the browser is
an external collaborator.  Returns the envelope and the slept durations. -/
def igRetryLoop (username : String) (ts : Int)
    (rounds : List (IgResult × IgAttempt)) : IgEnvelope × List Nat :=
  go rounds 0
where
  go : List (IgResult × IgAttempt) → Nat → IgEnvelope × List Nat
  | [], _ =>
      ({ platform := "Instagram", username := username,
         followers := .vStr "Not Found", timestamp := ts,
         error := some "All retrieval attempts failed" }, [])
  | (scrape, api) :: rest, retryCount =>
    let waitTime := 120 * 2 ^ retryCount
    match scrape with
    | .success f => (igSuccessEnvelope username ts f "direct-scraping", [])
    | .failure _ =>
      match igGetFollowersFromApi api with
      | .success f =>
          (igSuccessEnvelope username ts f "third-party-api-retry", [waitTime])
      | .failure _ =>
        let (env, sleeps) := go rest (retryCount + 1)
        (env, waitTime :: sleeps)

/-- Embedding of `InstagramService.get_followers`: API first; on failure, up to
`INSTAGRAM_MAX_RETRIES = 10` rounds of scrape-then-API.  `rounds` supplies
one (scrape outcome, API outcome) pair per round actually reached. -/
def igGetFollowers (username : String) (ts : Int) (a1 : IgAttempt)
    (rounds : List (IgResult × IgAttempt)) : IgEnvelope × List Nat :=
  match igGetFollowersFromApi a1 with
  | .success f => (igSuccessEnvelope username ts f "third-party-api", [])
  | .failure _ => igRetryLoop username ts (rounds.take 10)

/- ### LinkedIn company aggregation (`services/linkedin_company.py`) -/

/-- A company-page envelope (`get_all_company_data` entries). -/
structure CompanyData where
  platform : String
  type : String
  name : String
  url : String
  followers : PyVal
  timestamp : Int
  error : Option String := none
  deriving Repr

/-- Map `url_to_name_map` (`linkedin_company.py` lines 52-57) applied with the
`get(url, url)` default. -/
def urlToName (url : String) : String :=
  if url = "https://www.linkedin.com/company/ai-finance-club" then
    "AI Finance Club"
  else if url = "https://www.linkedin.com/company/business-infographics" then
    "Business Infographics"
  else if url = "https://www.linkedin.com/company/nicolas-boucher-online" then
    "Nicolas Boucher Online"
  else if url = "https://www.linkedin.com/company/excel-cheatsheets/" then
    "Excel Cheatsheets"
  else url

/-- The default company URL list (settings). -/
def companyUrls : List String := [
  "https://www.linkedin.com/company/ai-finance-club",
  "https://www.linkedin.com/company/business-infographics",
  "https://www.linkedin.com/company/nicolas-boucher-online",
  "https://www.linkedin.com/company/excel-cheatsheets/"]

/-- Embedding of `LinkedInCompanyService.get_all_company_data` (lines 145-189): one entry
per URL.  Each `get_company_followers` outcome is an input: `.ok (some n)` a
count, `.ok none` not found, `.error e` a raised exception (`str(e)`); the
per-company `except` turns a raise into a "Not Found" entry with the error
string, and never aborts the remaining companies. -/
def getAllCompanyData (ts : Int) (urls : List String)
    (outcomes : List (Except String (Option Int))) : List CompanyData :=
  (urls.zip outcomes).map (fun (url, o) =>
    match o with
    | .ok followers =>
        { platform := "LinkedIn", type := "Company Page",
          name := urlToName url, url := url,
          followers := match followers with
            | some n => .vInt n
            | none => .vStr "Not Found",
          timestamp := ts }
    | .error e =>
        { platform := "LinkedIn", type := "Company Page",
          name := urlToName url, url := url, followers := .vStr "Not Found",
          timestamp := ts, error := some e })

/- ### Orchestrator (`main.py` collect functions) -/

/-- A generic single-metric envelope for the collectors (`platform`, the
metric under its field name, optional `error`). -/
structure MetricEnvelope where
  platform : String
  type : Option String := none
  value : PyVal
  error : Option String := none
  timestamp : Int
  deriving Repr

/-- Embedding of `collect_linkedin_profile_data`: absorbs any exception into a
"Not Found" envelope carrying `str(e)`.  The service outcome is an input. -/
def collectLinkedinProfileData (ts : Int) (o : Except String MetricEnvelope) :
    MetricEnvelope :=
  match o with
  | .ok d => d
  | .error e =>
      { platform := "LinkedIn", type := some "Personal Profile",
        value := .vStr "Not Found", error := some e, timestamp := ts }

/-- The placeholder list `collect_linkedin_company_data` returns when the
whole service call raises (`main.py` lines 119-152). -/
def companyPlaceholders (ts : Int) (e : String) : List CompanyData :=
  ["AI Finance Club", "Business Infographics", "Nicolas Boucher Online",
   "Excel Cheatsheets"].map (fun n =>
    { platform := "LinkedIn", type := "Company Page", name := n, url := "",
      followers := .vStr "Not Found", timestamp := ts, error := some e })

/-- Embedding of `collect_linkedin_company_data`. -/
def collectLinkedinCompanyData (ts : Int)
    (o : Except String (List CompanyData)) : List CompanyData :=
  match o with
  | .ok l => l
  | .error e => companyPlaceholders ts e

/-- Embedding of `collect_linkedin_newsletter_data`. -/
def collectLinkedinNewsletterData (ts : Int)
    (o : Except String MetricEnvelope) : MetricEnvelope :=
  match o with
  | .ok d => d
  | .error e =>
      { platform := "LinkedIn", type := some "Newsletter",
        value := .vStr "Not Found", error := some e, timestamp := ts }

/-- Embedding of `collect_twitter_data`: absorbs the `APIError`/`RateLimitError` the
service may re-raise. -/
def collectTwitterData (ts : Int) (o : Except TwError TwEnvelope) :
    TwEnvelope :=
  match o with
  | .ok d => d
  | .error e =>
      { platform := "Twitter", username := "",
        followers := .vStr "Not Found", timestamp := ts,
        error := some (match e with | .rateLimit m => m | .api _ m => m) }

/-- Embedding of `collect_instagram_data`. -/
def collectInstagramData (ts : Int) (o : Except String IgEnvelope) :
    IgEnvelope :=
  match o with
  | .ok d => d
  | .error e =>
      { platform := "Instagram", username := "",
        followers := .vStr "Not Found", timestamp := ts, error := some e }

/-- A YouTube envelope (subscribers and views). -/
structure YtEnvelope where
  platform : String
  subscribers : PyVal
  views : PyVal
  error : Option String := none
  timestamp : Int
  deriving Repr

/-- Embedding of `collect_youtube_data`. -/
def collectYoutubeData (ts : Int) (o : Except String YtEnvelope) :
    YtEnvelope :=
  match o with
  | .ok d => d
  | .error e =>
      { platform := "YouTube", subscribers := .vStr "Not Found",
        views := .vStr "Not Found", error := some e, timestamp := ts }

/-- The per-range placeholder `collect_kit_data` builds on a raise
(`main.py` lines 279-299). -/
def kitCollectPlaceholder (range : KitRange) (ts : Int) (e : String) :
    PyDict :=
  [("platform", .vStr "Kit"),
   ("time_range", .vStr range.name),
   ("subscribers", .vStr "Not Found"),
   ("error", .vStr e),
   ("timestamp", .vInt ts)]

/-- Embedding of `collect_kit_data`. -/
def collectKitData (ts : Int) (o : Except String (PyDict × PyDict × PyDict)) :
    PyDict × PyDict × PyDict :=
  match o with
  | .ok d => d
  | .error e =>
      (kitCollectPlaceholder .daily ts e,
       kitCollectPlaceholder .weekly ts e,
       kitCollectPlaceholder .monthly ts e)

/-- The service-call outcomes of one run, one per collector. -/
structure RunOutcomes where
  profile : Except String MetricEnvelope
  company : Except String (List CompanyData)
  newsletter : Except String MetricEnvelope
  twitter : Except TwError TwEnvelope
  instagram : Except String IgEnvelope
  youtube : Except String YtEnvelope
  kit : Except String (PyDict × PyDict × PyDict)

/-- The collected data of one run. -/
structure CollectedData where
  profile : MetricEnvelope
  company : List CompanyData
  newsletter : MetricEnvelope
  twitter : TwEnvelope
  instagram : IgEnvelope
  youtube : YtEnvelope
  kit : PyDict × PyDict × PyDict
  deriving Repr

/-- Step 1 of `run_followers_tracker`: run every collector in sequence; each
absorbs the failure of its own service. -/
def runCollect (ts : Int) (o : RunOutcomes) : CollectedData :=
  { profile := collectLinkedinProfileData ts o.profile,
    company := collectLinkedinCompanyData ts o.company,
    newsletter := collectLinkedinNewsletterData ts o.newsletter,
    twitter := collectTwitterData ts o.twitter,
    instagram := collectInstagramData ts o.instagram,
    youtube := collectYoutubeData ts o.youtube,
    kit := collectKitData ts o.kit }

/- ### Submission mapper (`utils/followers_submitter.py`) -/

/-- The `company_data_by_name` dict of `submit_followers_data` (lines 74-76)
looked up at a name: iterating the list in order, a later entry with the
same name overwrites an earlier one, so the LAST entry with the name wins;
an absent name yields the `{}` default. -/
def companyByName (companies : List CompanyData) (n : String) :
    Option CompanyData :=
  (companies.filter (fun c => c.name = n)).getLast?

/-- Lookup `company_data_by_name.get(n, ...).get("followers")`: `None` when the name
is absent. -/
def companyFollowersFor (companies : List CompanyData) (n : String) : PyVal :=
  match companyByName companies n with
  | some c => c.followers
  | none => .vNone

/-- The `form_data` dict of `submit_followers_data` (lines 79-106), in
insertion order.  Note the lookup key `"Ai Finance Club"` (line 86) and the
defaults `"Not Available"` for the two 30-day fields (lines 101-102), which
the Twitter envelope never carries. -/
def followersFormData (profile : MetricEnvelope) (companies : List CompanyData)
    (newsletter : MetricEnvelope) (youtube : YtEnvelope)
    (instagram : IgEnvelope) (twitter : TwEnvelope) (kitDaily : PyDict) :
    PyDict :=
  [("Nicolas Boucher Personal Account", profile.value),
   ("Business Infographics", companyFollowersFor companies "Business Infographics"),
   ("Nicolas Boucher Online", companyFollowersFor companies "Nicolas Boucher Online"),
   ("AI Finance Club", companyFollowersFor companies "Ai Finance Club"),
   ("Excel Cheatsheets", companyFollowersFor companies "Excel Cheatsheets"),
   ("AI + Finance by Nicolas Boucher Newsteller", newsletter.value),
   ("Nicolas Boucher Online Videos | YouTube Subscribers", youtube.subscribers),
   ("Nicolas Boucher Online Videos | YouTube Total Views", youtube.views),
   ("Instagram Total Followers", instagram.followers),
   ("X Total Number of Followers", twitter.followers),
   ("X Followers Last 30 Days", .vStr "Not Available"),
   ("X Followers Last 30 Days Percentage", .vStr "Not Available"),
   ("Kit\x27s Daily Number of Subscribers", kitDaily.getD "subscribers")]

/-- The `form_data` dict of `submit_kit_stats` (lines 146-161): every value
is a `.get(...)` with the Python default `None`. -/
def kitStatsFormData (kitDaily kitWeekly kitMonthly : PyDict) : PyDict :=
  [("Today\x27s Number of Subs", kitDaily.getD "subscribers"),
   ("Cancellation", kitDaily.getD "cancellations"),
   ("Net New Subscribers", kitDaily.getD "net_new_subscribers"),
   ("New Subscribers", kitDaily.getD "new_subscribers"),
   ("Weekly Number of Subscribers", kitWeekly.getD "subscribers"),
   ("Weekly Cancellations", kitWeekly.getD "cancellations"),
   ("Weekly Net New Subscribers", kitWeekly.getD "net_new_subscribers"),
   ("Weekly New Subscribers", kitWeekly.getD "new_subscribers"),
   ("Monthly Number of Subs", kitMonthly.getD "subscribers"),
   ("Monthly Cancellations", kitMonthly.getD "cancellations"),
   ("Monthly Net New Subscribers", kitMonthly.getD "net_new_subscribers"),
   ("Monthly New Subscribers", kitMonthly.getD "new_subscribers")]

/- ### Form POST with retry (`utils/forms_submitter.py  GoogleFormsSubmitter.submit_data`) -/

/-- Outcome of one POST attempt. -/
inductive PostAttempt where
  | netError
  | status (code : Nat)
  deriving DecidableEq, Repr

/-- The `while retries <= max_retries` loop of `submit_data` (lines 51-81):
attempt `i` (zero-based, = the current `retries`) succeeds ONLY on status
code exactly 200; any other status and any network error behave alike: give
up when `retries == max_retries`, otherwise increment `retries` and sleep
`2 ** retries`.  `fuel` bounds the loop (it starts at `maxRetries + 1 -
retries`, so the `0` case is never reached).  Returns (success, slept
durations, number of POST attempts made). -/
def submitDataLoop (att : Nat → PostAttempt) (maxRetries : Nat) :
    Nat → Nat → Bool × List Nat × Nat
  | _, 0 => (false, [], 0)
  | retries, fuel + 1 =>
    if att retries = .status 200 then (true, [], 1)
    else if retries = maxRetries then (false, [], 1)
    else
      let (ok, sleeps, attempts) :=
        submitDataLoop att maxRetries (retries + 1) fuel
      (ok, 2 ^ (retries + 1) :: sleeps, attempts + 1)

/-- Embedding of `GoogleFormsSubmitter.submit_data` with its default `max_retries = 3`
(the only value call sites use). -/
def submitData (att : Nat → PostAttempt) (maxRetries : Nat := 3) :
    Bool × List Nat × Nat :=
  submitDataLoop att maxRetries 0 (maxRetries + 1)

/- ### Helper predicates and concrete inputs used by the theorems below -/

/-- Whether a step classification is the success case. -/
def TwStep.isOk : TwStep → Bool
  | .ok _ => true
  | _ => false

/-- Whether an `Except` value is `ok` (a Python call that did not raise). -/
def exceptOk {ε α : Type} (x : Except ε α) : Bool :=
  match x with
  | .ok _ => true
  | .error _ => false

/-- Keep a per-pattern candidate only when it is a nonzero count. -/
def nonzeroCand (c : Option Nat) : Option Nat :=
  c.bind (fun n => if n = 0 then none else some n)

/-- Modelled from the amended claim: the Instagram page-content extractor
returns the first nonzero count obtained by scanning, pattern by pattern in
declaration order, ALL matches of each pattern for the first digit-parsable
one; when every parsable match parses to `0` it returns `0`, and when no
match of any pattern parses it returns nothing. -/
def instaAmendedExtract (findall : String → List String) : Option Nat :=
  let candidates := instagramContentPatterns.map
    (fun p => instaScanMatches (findall p))
  match candidates.findSome? nonzeroCand with
  | some n => some n
  | none => if candidates.any Option.isSome then some 0 else none

/-- Findall oracle of the concrete Instagram page content
"Followers</span><span>1.2K</span> ... Followers</span><span>500</span>":
patterns 1-3 have no match there; pattern 4
(Followers</span><span[^>]*>([^<]+)) has, in document order, the two
non-overlapping matches with captured groups "1.2K" and "500". -/
def instaDemoFindall (p : String) : List String :=
  if p = "Followers</span><span[^>]*>([^<]+)" then ["1.2K", "500"] else []

/-- Search oracle of a concrete company page content "1,234 followers":
pattern 1 of the company list matches with group(1) = "1,234"; the other
patterns are not consulted. -/
def c1WitnessSearch (p : String) : Option String :=
  if p = "(\\d+,?\\d*)\\s+followers" then some "1,234" else none

/-- A successful profile envelope for the C4 scenario. -/
def c4DemoProfile : MetricEnvelope :=
  { platform := "LinkedIn", type := some "Personal Profile",
    value := .vInt 100, timestamp := 0 }

/-- Company results of a run in which three of the four configured company
pages returned counts and the AI Finance Club page is absent from the
result set. -/
def c4DemoCompanies : List CompanyData :=
  [{ platform := "LinkedIn", type := "Company Page",
     name := "Business Infographics",
     url := "https://www.linkedin.com/company/business-infographics",
     followers := .vInt 200, timestamp := 0 },
   { platform := "LinkedIn", type := "Company Page",
     name := "Nicolas Boucher Online",
     url := "https://www.linkedin.com/company/nicolas-boucher-online",
     followers := .vInt 300, timestamp := 0 },
   { platform := "LinkedIn", type := "Company Page",
     name := "Excel Cheatsheets",
     url := "https://www.linkedin.com/company/excel-cheatsheets/",
     followers := .vInt 400, timestamp := 0 }]

/-- A successful newsletter envelope for the C4 scenario. -/
def c4DemoNewsletter : MetricEnvelope :=
  { platform := "LinkedIn", type := some "Newsletter",
    value := .vInt 500, timestamp := 0 }

/-- A successful YouTube envelope for the C4 scenario. -/
def c4DemoYoutube : YtEnvelope :=
  { platform := "YouTube", subscribers := .vInt 600, views := .vInt 700,
    timestamp := 0 }

/-- A successful Instagram envelope for the C4 scenario. -/
def c4DemoInstagram : IgEnvelope :=
  igSuccessEnvelope "nicolasboucherfinance" 0 (.vInt 800) "third-party-api"

/-- A successful Twitter envelope for the C4 scenario. -/
def c4DemoTwitter : TwEnvelope :=
  { platform := "Twitter", username := "bouchernicolas",
    followers := .vInt 900, timestamp := 0, raw_metrics := some (some (.vInt 900)) }

/-- A successful Kit daily dict for the C4 scenario. -/
def c4DemoKitDaily : PyDict :=
  kitSuccessDict .daily 0
    { subscribers := some 10, cancellations := some 1,
      net_new_subscribers := some 9, new_subscribers := some 10 }

/-- The fixed key list of the followers form map, in insertion order. -/
def followersFormKeys : List String :=
  ["Nicolas Boucher Personal Account", "Business Infographics",
   "Nicolas Boucher Online", "AI Finance Club", "Excel Cheatsheets",
   "AI + Finance by Nicolas Boucher Newsteller",
   "Nicolas Boucher Online Videos | YouTube Subscribers",
   "Nicolas Boucher Online Videos | YouTube Total Views",
   "Instagram Total Followers", "X Total Number of Followers",
   "X Followers Last 30 Days", "X Followers Last 30 Days Percentage",
   "Kit\x27s Daily Number of Subscribers"]

/- ### C1: ranked-pattern extraction -/

theorem profileTryPatterns_eq_spec (search : String → Option String) :
    ∀ ps, profileTryPatterns search ps = specRankedExtract search ps := by
  intro ps
  induction ps with
  | nil => rfl
  | cons p rest ih =>
    simp only [profileTryPatterns, specRankedExtract, List.findSome?_cons] at *
    cases hs : search p with
    | none => simpa using ih
    | some s =>
      cases hp : pyInt (stripCommas s) with
      | none => simpa [hp] using ih
      | some n => simp [hp]

theorem unguardedTryPatterns_eq_spec (search : String → Option String) :
    ∀ ps, (∀ p ∈ ps, ∀ s, search p = some s →
        (pyInt (stripCommas s)).isSome = true) →
      unguardedTryPatterns search ps = .ok (specRankedExtract search ps) := by
  intro ps
  induction ps with
  | nil => intro _; rfl
  | cons p rest ih =>
    intro h
    simp only [unguardedTryPatterns, specRankedExtract, List.findSome?_cons] at *
    cases hs : search p with
    | none =>
      simpa using ih (fun q hq s hqs => h q (List.mem_cons_of_mem _ hq) s hqs)
    | some s =>
      cases hp : pyInt (stripCommas s) with
      | none =>
        have hd := h p (List.mem_cons_self _ _) s hs
        rw [hp] at hd
        simp at hd
      | some n => simp [hp]

theorem instaPatternLoop_char (findall : String → List String) :
    ∀ ps acc, acc = none ∨ acc = some 0 →
      instaPatternLoop findall ps acc =
        (match (ps.map (fun p => instaScanMatches (findall p))).findSome?
            nonzeroCand with
         | some n => some n
         | none =>
           if (ps.map (fun p => instaScanMatches (findall p))).any Option.isSome
           then some 0 else acc) := by
  intro ps
  induction ps with
  | nil => intro acc _; simp [instaPatternLoop]
  | cons p rest ih =>
    intro acc hacc
    cases hc : instaScanMatches (findall p) with
    | none =>
      rcases hacc with h0 | h0 <;> subst h0 <;>
        simp only [instaPatternLoop, hc, List.map_cons, List.findSome?_cons,
          List.any_cons, nonzeroCand, Option.none_bind, Option.isSome_none,
          Bool.false_or]
      · rw [if_pos (Or.inr trivial)]
        exact ih none (Or.inl rfl)
      · rw [if_pos (Or.inl trivial)]
        exact ih (some 0) (Or.inr rfl)
    | some n =>
      by_cases hn : n = 0
      · subst hn
        simp only [instaPatternLoop, hc, List.map_cons, List.findSome?_cons,
          List.any_cons, nonzeroCand, Option.some_bind, if_pos rfl,
          Option.isSome_some, Bool.true_or]
        rw [if_pos (Or.inl trivial)]
        simp only [if_true]
        rw [ih (some 0) (Or.inr rfl)]
        cases hrest : (rest.map
            (fun q => instaScanMatches (findall q))).findSome? nonzeroCand with
        | none => simp
        | some m => simp
      · have hng : ¬((some n : Option Nat) = some 0 ∨
            (some n : Option Nat) = none) := by simp [hn]
        simp only [instaPatternLoop, hc, List.map_cons, List.findSome?_cons,
          List.any_cons, nonzeroCand, Option.some_bind, if_neg hn, if_neg hng]

/-- C1 counterexample.  On the page content
"Followers</span><span>1.2K</span> ... Followers</span><span>500</span>"
(oracle `instaDemoFindall`), the first match of the only matching pattern
captures "1.2K", which does not parse as an integer; the claim therefore
requires the pattern (the last one) to be skipped and the extraction to
fail, but the Instagram page-content extractor moves on to the NEXT MATCH
of the SAME pattern and returns 500. -/
theorem claim_C1_counterexample :
    instaExtractFromContent instaDemoFindall = some 500
    ∧ specRankedExtractFindall instaDemoFindall instagramContentPatterns
        = none := by
  constructor <;> decide

/-- C1 (amended).  For the `re.search`-based extractors the ranked order is
as claimed: the LinkedIn profile extractor returns the first pattern, in
declaration order, whose first match parses as an integer after stripping
thousands separators, skipping a pattern whose captured text fails to
parse; the LinkedIn company and newsletter extractors agree with that
semantics whenever every captured text parses (they have no parse-failure
guard, so an unparsable capture raises instead of skipping).  The Instagram
page-content extractor instead scans ALL matches of each pattern in order,
takes the first match that parses as digits, moves to the next pattern only
when no match of the current pattern parses, and treats a parsed 0 as
non-final (a later pattern may override it). -/
theorem claim_C1_amended :
    (∀ search, extractFollowersFromContent search
        = specRankedExtract search linkedinProfilePatterns)
    ∧ (∀ search,
        (∀ p ∈ linkedinCompanyPatterns, ∀ s, search p = some s →
            (pyInt (stripCommas s)).isSome = true) →
        extractCompanyFollowers search
          = .ok (specRankedExtract search linkedinCompanyPatterns))
    ∧ (∀ search,
        (∀ p ∈ linkedinNewsletterPatterns, ∀ s, search p = some s →
            (pyInt (stripCommas s)).isSome = true) →
        extractNewsletterSubscribers search
          = .ok (specRankedExtract search linkedinNewsletterPatterns))
    ∧ (∀ findall, instaExtractFromContent findall
        = instaAmendedExtract findall) := by
  refine ⟨fun search => ?_, fun search h => ?_, fun search h => ?_,
    fun findall => ?_⟩
  · exact profileTryPatterns_eq_spec search linkedinProfilePatterns
  · exact unguardedTryPatterns_eq_spec search linkedinCompanyPatterns h
  · exact unguardedTryPatterns_eq_spec search linkedinNewsletterPatterns h
  · exact instaPatternLoop_char findall instagramContentPatterns none
      (Or.inl rfl)

/-- Witness for C1 (amended): the company extractor on the concrete content
"1,234 followers" returns 1234, through the company conjunct. -/
theorem claim_C1_amended_witness :
    extractCompanyFollowers c1WitnessSearch
      = .ok (specRankedExtract c1WitnessSearch linkedinCompanyPatterns) := by
  apply claim_C1_amended.2.1 c1WitnessSearch
  intro p _ s hs
  unfold c1WitnessSearch at hs
  split at hs
  · cases hs
    decide
  · exact absurd hs (by simp)

/- ### C2: retry exhaustion returns envelopes vs. raises -/

/-- C2 counterexample.  When both Twitter attempts return HTTP 429, the
service does NOT return a failure envelope after its single retry: the
second pass raises `RateLimitError`, which propagates out of
`get_followers` (it is only caught one level up, in `collect_twitter_data`). -/
theorem claim_C2_counterexample :
    twGetFollowers "bouchernicolas" 0 (.response 429 "unknown" "" none)
        (.response 429 "unknown" "" none)
      = (.error (.rateLimit
          "Twitter API rate limit exceeded. Reset at: unknown"), [900], 2) := by
  rfl

/-- C2 (amended).  After a failing first attempt the Twitter service always
sleeps 900 s and re-runs once without retry; that second pass (and likewise
the Kit per-window pull) returns a failure envelope for network errors,
unexpected errors and missing-data responses, but RAISES
(`RateLimitError`/`APIError`) exactly when the attempt produced an HTTP
response with a non-200 status; the raise is absorbed one level up, where
`collect_twitter_data` converts it into a "Not Found" envelope carrying the
error description. -/
theorem claim_C2_amended :
    (∀ u ts a1 a2, (twStep u ts a1).isOk = false →
      twGetFollowers u ts a1 a2 = (twGetFollowersNoRetry u ts a2, [900], 2))
    ∧ (∀ u (ts : Int) a,
        exceptOk (twGetFollowersNoRetry u ts a) = false ↔
          ∃ status reset text m,
            a = .response status reset text m ∧ status ≠ 200)
    ∧ (∀ range (ts : Int) a,
        exceptOk (kitPullStats range ts a) = false ↔
          ∃ status text body, a = .response status text body ∧ status ≠ 200)
    ∧ (∀ (ts : Int) e, collectTwitterData ts (.error e)
        = { platform := "Twitter", username := "",
            followers := .vStr "Not Found", timestamp := ts,
            error := some (match e with
              | .rateLimit m => m | .api _ m => m) }) := by
  refine ⟨fun u ts a1 a2 h => ?_, fun u ts a => ?_, fun range ts a => ?_,
    fun ts e => rfl⟩
  · unfold twGetFollowers
    cases htw : twStep u ts a1 <;> simp_all [TwStep.isOk]
  · cases a with
    | netError msg => simp [twGetFollowersNoRetry, twStep, exceptOk]
    | unexpected msg => simp [twGetFollowersNoRetry, twStep, exceptOk]
    | response status reset text m =>
      by_cases h429 : status = 429
      · subst h429
        simp only [twGetFollowersNoRetry, twStep, if_pos rfl]
        simp [exceptOk]
      · by_cases h200 : status = 200
        · subst h200
          cases m with
          | none =>
            simp [twGetFollowersNoRetry, twStep, exceptOk, h429]
          | some f =>
            simp [twGetFollowersNoRetry, twStep, exceptOk, h429]
        · simp [twGetFollowersNoRetry, twStep, exceptOk, h429, h200]
  · cases a with
    | netError msg => simp [kitPullStats, exceptOk]
    | unexpected msg => simp [kitPullStats, exceptOk]
    | response status text body =>
      by_cases h429 : status = 429
      · subst h429
        simp only [kitPullStats, if_pos rfl]
        simp [exceptOk]
      · by_cases h200 : status = 200
        · subst h200
          simp [kitPullStats, exceptOk, h429]
        · simp [kitPullStats, exceptOk, h429, h200]

/-- Witness for C2 (amended): a failing first Twitter attempt (a network
timeout) triggers the single 900 s wait-and-rerun. -/
theorem claim_C2_amended_witness :
    twGetFollowers "bouchernicolas" 0 (.netError "timeout") (.netError "timeout")
      = (twGetFollowersNoRetry "bouchernicolas" 0 (.netError "timeout"),
         [900], 2) :=
  claim_C2_amended.1 "bouchernicolas" 0 (.netError "timeout")
    (.netError "timeout") (by decide)

/- ### C3: orchestrator resilience -/

/-- C3.  Every collector absorbs a raised error from its Acquirer into a
failure envelope carrying the error description, the remaining collectors
still produce their envelopes (the collected record always has every slot
filled), the company collector yields one envelope per configured company
even when the whole service call raises, and inside the company service one
company raising affects only its own entry. -/
theorem claim_C3 :
    (∀ (ts : Int) (o : RunOutcomes) e, o.profile = .error e →
      (runCollect ts o).profile
        = { platform := "LinkedIn", type := some "Personal Profile",
            value := .vStr "Not Found", error := some e, timestamp := ts })
    ∧ (∀ (ts : Int) (o : RunOutcomes) e, o.newsletter = .error e →
      (runCollect ts o).newsletter
        = { platform := "LinkedIn", type := some "Newsletter",
            value := .vStr "Not Found", error := some e, timestamp := ts })
    ∧ (∀ (ts : Int) (o : RunOutcomes) e, o.twitter = .error e →
      (runCollect ts o).twitter
        = { platform := "Twitter", username := "",
            followers := .vStr "Not Found", timestamp := ts,
            error := some (match e with
              | .rateLimit m => m | .api _ m => m) })
    ∧ (∀ (ts : Int) (o : RunOutcomes) e, o.instagram = .error e →
      (runCollect ts o).instagram
        = { platform := "Instagram", username := "",
            followers := .vStr "Not Found", timestamp := ts,
            error := some e })
    ∧ (∀ (ts : Int) (o : RunOutcomes) e, o.youtube = .error e →
      (runCollect ts o).youtube
        = { platform := "YouTube", subscribers := .vStr "Not Found",
            views := .vStr "Not Found", error := some e, timestamp := ts })
    ∧ (∀ (ts : Int) (o : RunOutcomes) e, o.kit = .error e →
      (runCollect ts o).kit
        = (kitCollectPlaceholder .daily ts e,
           kitCollectPlaceholder .weekly ts e,
           kitCollectPlaceholder .monthly ts e))
    ∧ (∀ (ts : Int) (o : RunOutcomes) e, o.company = .error e →
      (runCollect ts o).company.length = 4
      ∧ ∀ c ∈ (runCollect ts o).company,
          c.followers = .vStr "Not Found" ∧ c.error = some e)
    ∧ (∀ (ts : Int) o1 o2 o3 o4,
        (getAllCompanyData ts companyUrls [o1, o2, o3, o4]).length = 4)
    ∧ (∀ (ts : Int) o1 o2 o2' o3 o4,
        (getAllCompanyData ts companyUrls [o1, o2, o3, o4]).head?
          = (getAllCompanyData ts companyUrls [o1, o2', o3, o4]).head?
        ∧ (getAllCompanyData ts companyUrls [o1, o2, o3, o4]).drop 2
          = (getAllCompanyData ts companyUrls [o1, o2', o3, o4]).drop 2)
    ∧ (∀ (ts : Int) url urls e (outs : List (Except String (Option Int))),
        (getAllCompanyData ts (url :: urls) (.error e :: outs)).head?
          = some { platform := "LinkedIn", type := "Company Page",
                   name := urlToName url, url := url,
                   followers := .vStr "Not Found", timestamp := ts,
                   error := some e }) := by
  refine ⟨fun ts o e h => ?_, fun ts o e h => ?_, fun ts o e h => ?_,
    fun ts o e h => ?_, fun ts o e h => ?_, fun ts o e h => ?_,
    fun ts o e h => ?_, fun ts o1 o2 o3 o4 => rfl,
    fun ts o1 o2 o2' o3 o4 => ⟨rfl, rfl⟩, fun ts url urls e outs => rfl⟩
  · simp [runCollect, collectLinkedinProfileData, h]
  · simp [runCollect, collectLinkedinNewsletterData, h]
  · simp [runCollect, collectTwitterData, h]
  · simp [runCollect, collectInstagramData, h]
  · simp [runCollect, collectYoutubeData, h]
  · simp [runCollect, collectKitData, h]
  · refine ⟨by simp [runCollect, collectLinkedinCompanyData, h,
      companyPlaceholders], ?_⟩
    intro c hc
    simp only [runCollect, collectLinkedinCompanyData, h,
      companyPlaceholders, List.map_cons, List.map_nil, List.mem_cons,
      List.not_mem_nil, or_false] at hc
    rcases hc with rfl | rfl | rfl | rfl <;> exact ⟨rfl, rfl⟩

/-- Witness for C3: a company-service call that raises "boom" still yields
four company envelopes, each marked "Not Found" and carrying the error. -/
theorem claim_C3_witness :
    ((runCollect 0
        { profile := .ok c4DemoProfile, company := .error "boom",
          newsletter := .ok c4DemoNewsletter, twitter := .ok c4DemoTwitter,
          instagram := .ok c4DemoInstagram, youtube := .ok c4DemoYoutube,
          kit := .ok (c4DemoKitDaily, c4DemoKitDaily, c4DemoKitDaily) }).company.length = 4
    ∧ ∀ c ∈ (runCollect 0
        { profile := .ok c4DemoProfile, company := .error "boom",
          newsletter := .ok c4DemoNewsletter, twitter := .ok c4DemoTwitter,
          instagram := .ok c4DemoInstagram, youtube := .ok c4DemoYoutube,
          kit := .ok (c4DemoKitDaily, c4DemoKitDaily, c4DemoKitDaily) }).company,
        c.followers = .vStr "Not Found" ∧ c.error = some "boom") :=
  claim_C3.2.2.2.2.2.2.1 0 _ "boom" rfl

/- ### C4: submission mapper completeness and the absent-target value -/

/-- C4 counterexample.  In a run whose company results lack the AI Finance
Club page (`c4DemoCompanies`), the followers form map still contains the
key "AI Finance Club", but its value is Python `None` (the `dict.get`
default), not the literal string "Not Found" the claim requires. -/
theorem claim_C4_counterexample :
    (followersFormData c4DemoProfile c4DemoCompanies c4DemoNewsletter
        c4DemoYoutube c4DemoInstagram c4DemoTwitter c4DemoKitDaily).get?
        "AI Finance Club" = some PyVal.vNone
    ∧ (followersFormData c4DemoProfile c4DemoCompanies c4DemoNewsletter
        c4DemoYoutube c4DemoInstagram c4DemoTwitter c4DemoKitDaily).getD
        "AI Finance Club" ≠ .vStr "Not Found" := by
  constructor <;> decide

/-- C4 (amended).  The followers form map always contains every fixed
business field-name key, in a fixed order; an AccountTarget absent from the
run's company results is mapped to Python `None` (not "Not Found", and not
omitted); and the "AI Finance Club" form field reads the company results
under the differently-cased lookup name "Ai Finance Club". -/
theorem claim_C4_amended :
    (∀ profile companies newsletter youtube instagram twitter kitDaily,
      (followersFormData profile companies newsletter youtube instagram
          twitter kitDaily).keys = followersFormKeys)
    ∧ (∀ companies n, (∀ c ∈ companies, c.name ≠ n) →
        companyFollowersFor companies n = .vNone)
    ∧ (∀ profile companies newsletter youtube instagram twitter kitDaily,
        (followersFormData profile companies newsletter youtube instagram
            twitter kitDaily).get? "AI Finance Club"
          = some (companyFollowersFor companies "Ai Finance Club")) := by
  refine ⟨fun _ _ _ _ _ _ _ => rfl, fun companies n h => ?_,
    fun _ _ _ _ _ _ _ => rfl⟩
  unfold companyFollowersFor companyByName
  have hf : companies.filter (fun c => c.name = n) = [] := by
    rw [List.filter_eq_nil_iff]
    intro c hc
    simpa using h c hc
  rw [hf]
  rfl

/-- Witness for C4 (amended): the AI Finance Club lookup name is absent from
`c4DemoCompanies`, so its value is `None`. -/
theorem claim_C4_amended_witness :
    companyFollowersFor c4DemoCompanies "Ai Finance Club" = .vNone :=
  claim_C4_amended.2.1 c4DemoCompanies "Ai Finance Club" (by decide)

/- ### C5: Twitter fixed single cooldown -/

/-- C5.  The Twitter service makes at most two API requests per run; on any
failure of the first request the slept durations are exactly [900] (one
fixed 15-minute wait, no exponential escalation) followed by exactly one
retry, and on a first-request success there is no wait and no retry. -/
theorem claim_C5 :
    ∀ u (ts : Int) a1 a2,
      (twGetFollowers u ts a1 a2).2.2 ≤ 2
      ∧ ((twStep u ts a1).isOk = false →
          twGetFollowers u ts a1 a2
            = (twGetFollowersNoRetry u ts a2, [900], 2))
      ∧ (∀ env, twStep u ts a1 = .ok env →
          twGetFollowers u ts a1 a2 = (.ok env, [], 1)) := by
  intro u ts a1 a2
  refine ⟨?_, fun h => ?_, fun env h => ?_⟩ <;>
    cases htw : twStep u ts a1 <;>
      simp_all [twGetFollowers, TwStep.isOk]

/-- Witness for C5: a rate-limited first request (HTTP 429) slept exactly
[900] and was followed by exactly one retry. -/
theorem claim_C5_witness :
    twGetFollowers "bouchernicolas" 0 (.response 429 "unknown" "" none)
        (.response 200 "unknown" "" (some (some (.vInt 7))))
      = (twGetFollowersNoRetry "bouchernicolas" 0
          (.response 200 "unknown" "" (some (some (.vInt 7)))), [900], 2) :=
  (claim_C5 "bouchernicolas" 0 (.response 429 "unknown" "" none)
    (.response 200 "unknown" "" (some (some (.vInt 7))))).2.1 (by decide)

/- ### C6: success envelopes and integer metrics -/

/-- C6 counterexample.  With the API returning the JSON object with
user_followers = "1.2K" (a truthy, non-digit string), the Instagram
acquirer returns a SUCCESS envelope whose followers value is the raw string
"1.2K" — not an integer. -/
theorem claim_C6_counterexample :
    igGetFollowers "nicolasboucherfinance" 0
        (.response 200 "" (.json (some (.vStr "1.2K")))) []
      = (igSuccessEnvelope "nicolasboucherfinance" 0 (.vStr "1.2K")
          "third-party-api", [])
    ∧ PyVal.isInt (igSuccessEnvelope "nicolasboucherfinance" 0
        (.vStr "1.2K") "third-party-api").followers = false := by
  exact ⟨rfl, rfl⟩

theorem igRetryLoopGo_allFail (u : String) (ts : Int) :
    ∀ (rounds : List (IgResult × IgAttempt)) (k : Nat),
      (∀ r ∈ rounds, (∃ es, r.1 = IgResult.failure es)
        ∧ (∃ ea, igGetFollowersFromApi r.2 = .failure ea)) →
      (igRetryLoop.go u ts rounds k).1
        = { platform := "Instagram", username := u,
            followers := .vStr "Not Found", timestamp := ts,
            error := some "All retrieval attempts failed" } := by
  intro rounds
  induction rounds with
  | nil => intro k _; rfl
  | cons r rest ih =>
    intro k h
    obtain ⟨⟨es, hs⟩, ⟨ea, ha⟩⟩ := h r (List.mem_cons_self _ _)
    rcases r with ⟨scrape, api⟩
    simp only at hs
    subst hs
    simp only [igRetryLoop.go, ha]
    cases hgo : igRetryLoop.go u ts rest (k + 1) with
    | mk env sleeps =>
      have := ih (k + 1) (fun q hq => h q (List.mem_cons_of_mem _ hq))
      rw [hgo] at this
      simpa using this

/-- C6 (amended).  A success result from the Instagram API helper carries
the integer parse of the user_followers value when its string form is all
digits, and otherwise the raw (possibly non-integer) value unchanged; the
acquirer-level success envelope carries exactly that value, and when the
first API attempt and every scrape/API retry round fail, the envelope
carries the non-integer string "Not Found" and no other metric. -/
theorem claim_C6_amended :
    (∀ a v, igGetFollowersFromApi a = .success v →
      (v.isInt = false → pyIsDigit (pyStr v) = false))
    ∧ (∀ u (ts : Int) a1 rounds v, igGetFollowersFromApi a1 = .success v →
        igGetFollowers u ts a1 rounds
          = (igSuccessEnvelope u ts v "third-party-api", []))
    ∧ (∀ u (ts : Int) a1 e rounds, igGetFollowersFromApi a1 = .failure e →
        (∀ r ∈ rounds, (∃ es, r.1 = IgResult.failure es)
          ∧ (∃ ea, igGetFollowersFromApi r.2 = .failure ea)) →
        (igGetFollowers u ts a1 rounds).1
          = { platform := "Instagram", username := u,
              followers := .vStr "Not Found", timestamp := ts,
              error := some "All retrieval attempts failed" }
        ∧ PyVal.isInt (.vStr "Not Found") = false) := by
  refine ⟨fun a v h => ?_, fun u ts a1 rounds v h => ?_,
    fun u ts a1 e rounds h hall => ?_⟩
  · cases a with
    | netError msg => simp [igGetFollowersFromApi] at h
    | unexpected msg => simp [igGetFollowersFromApi] at h
    | response status text body =>
      by_cases h200 : status = 200
      · subst h200
        cases body with
        | jsonError msg => simp [igGetFollowersFromApi] at h
        | json uf =>
          simp only [igGetFollowersFromApi, if_neg (by decide : ¬(200 ≠ 200))] at h
          by_cases htr : (uf.getD .vNone).truthy
              && !(uf.getD .vNone).eqStr "Not Found"
          · rw [if_pos htr] at h
            cases h
            by_cases hd : pyIsDigit (pyStr (uf.getD .vNone))
            · intro hint
              rw [if_pos hd] at hint ⊢
              simp [PyVal.isInt] at hint
            · intro _
              rw [if_neg hd]
              simpa using hd
          · rw [if_neg htr] at h
            cases h
      · simp only [igGetFollowersFromApi, if_pos h200] at h
        cases h
  · unfold igGetFollowers
    rw [h]
  · unfold igGetFollowers
    rw [h]
    refine ⟨?_, rfl⟩
    unfold igRetryLoop
    exact igRetryLoopGo_allFail u ts (rounds.take 10) 0
      (fun r hr => hall r (List.take_subset 10 rounds hr))

/-- Witness for C6 (amended): a failing API attempt followed by one failing
scrape/API retry round yields the "Not Found" envelope. -/
theorem claim_C6_amended_witness :
    (igGetFollowers "nicolasboucherfinance" 0 (.netError "timeout")
        [(IgResult.failure "blocked", .netError "down")]).1
      = { platform := "Instagram", username := "nicolasboucherfinance",
          followers := .vStr "Not Found", timestamp := 0,
          error := some "All retrieval attempts failed" }
    ∧ PyVal.isInt (.vStr "Not Found") = false :=
  claim_C6_amended.2.2 "nicolasboucherfinance" 0 (.netError "timeout")
    "Request error when fetching from API: timeout"
    [(IgResult.failure "blocked", .netError "down")] rfl
    (by
      intro r hr
      simp only [List.mem_singleton] at hr
      subst hr
      exact ⟨⟨"blocked", rfl⟩,
        ⟨"Request error when fetching from API: down", rfl⟩⟩)

/- ### C7: form submission success condition and retry budget -/

/-- C7 counterexample.  A POST endpoint that always answers HTTP 201 — a
2xx status — is treated as a FAILURE: the submitter retries with backoff
[2, 4, 8] and reports failure after FOUR attempts, where the claim requires
immediate success on any 2xx and at most 3 attempts. -/
theorem claim_C7_counterexample :
    submitData (fun _ => .status 201) = (false, [2, 4, 8], 4) := by
  decide

/-- C7 (amended).  The submitter reports success exactly when one of its
FOUR POST attempts (the initial one plus `max_retries = 3` retries) returns
status code exactly 200 (other 2xx codes and network errors count as
failures); each failure before the last is followed by an exponential sleep
(2, then 4, then 8 seconds), and only after the fourth failed attempt is
the submission reported failed. -/
theorem claim_C7_amended :
    ∀ att : Nat → PostAttempt,
      submitData att =
        if att 0 = .status 200 then (true, [], 1)
        else if att 1 = .status 200 then (true, [2], 2)
        else if att 2 = .status 200 then (true, [2, 4], 3)
        else if att 3 = .status 200 then (true, [2, 4, 8], 4)
        else (false, [2, 4, 8], 4) := by
  intro att
  by_cases h0 : att 0 = .status 200 <;>
    by_cases h1 : att 1 = .status 200 <;>
      by_cases h2 : att 2 = .status 200 <;>
        by_cases h3 : att 3 = .status 200 <;>
          simp [submitData, submitDataLoop, h0, h1, h2, h3]

/- ### C8: Kit windows and the three pulls -/

/-- C8.  Writing d for the calendar day of now plus the fixed one-hour
offset: the daily window starts and ends on day d-1, the weekly window
spans day d-7 through day d-1, and the monthly window spans day d-30
through day d-1, each with start time 00:00:00 and end time 23:59:59 in
+01:00; a run with three non-raising pulls performs exactly the daily,
weekly and monthly pulls in that order; and every per-pull success dict
carries the four counters subscribers, cancellations, net_new_subscribers
and new_subscribers. -/
theorem claim_C8 :
    (∀ now : Int,
      kitWindow now .daily
        = (⟨dayOf (now + 3600) - 1, 0⟩, ⟨dayOf (now + 3600) - 1, 86399⟩)
      ∧ kitWindow now .weekly
        = (⟨dayOf (now + 3600) - 7, 0⟩, ⟨dayOf (now + 3600) - 1, 86399⟩)
      ∧ kitWindow now .monthly
        = (⟨dayOf (now + 3600) - 30, 0⟩, ⟨dayOf (now + 3600) - 1, 86399⟩))
    ∧ (∀ (ts : Int) a1 a2 a3 d w m,
        kitPullStats .daily ts a1 = .ok d →
        kitPullStats .weekly ts a2 = .ok w →
        kitPullStats .monthly ts a3 = .ok m →
        kitGetAllStats ts a1 a2 a3 = ((d, w, m), [.daily, .weekly, .monthly]))
    ∧ (∀ range (ts : Int) stats,
        (kitSuccessDict range ts stats).keys
          = ["platform", "time_range", "subscribers", "cancellations",
             "net_new_subscribers", "new_subscribers", "timestamp"]) := by
  refine ⟨fun now => ?_, fun ts a1 a2 a3 d w m h1 h2 h3 => ?_,
    fun range ts stats => rfl⟩
  · refine ⟨?_, ?_, ?_⟩ <;>
      simp only [kitWindow, dayOf, secPerDay, Prod.mk.injEq,
        KitBoundary.mk.injEq] <;>
      refine ⟨⟨?_, trivial⟩, ?_, trivial⟩ <;> omega
  · unfold kitGetAllStats
    rw [h1, h2, h3]

/-- Witness for C8: three 200-responses with an empty stats object yield the
three pulls in order. -/
theorem claim_C8_witness :
    kitGetAllStats 0 (.response 200 "" (some {})) (.response 200 "" (some {}))
        (.response 200 "" (some {}))
      = ((kitSuccessDict .daily 0 {}, kitSuccessDict .weekly 0 {},
          kitSuccessDict .monthly 0 {}), [.daily, .weekly, .monthly]) :=
  claim_C8.2.1 0 _ _ _ _ _ _ rfl rfl rfl

/- ### C9: missing counter keys default to 0 -/

/-- C9.  A 200 response whose expected container is present but whose
specific counter key is absent yields a success-shaped result with the
integer 0: Twitter defaults a missing followers_count inside
public_metrics to 0 (first attempt, no retry, no error field), and Kit
defaults each of the four counters missing from the stats object to 0
(and its success dict carries no error key). -/
theorem claim_C9 :
    (∀ u (ts : Int) reset text a2,
      twGetFollowers u ts (.response 200 reset text (some none)) a2
        = (.ok { platform := "Twitter", username := u, followers := .vInt 0,
                 timestamp := ts, raw_metrics := some none }, [], 1))
    ∧ (∀ range (ts : Int) text (obj : KitStatsObj),
        kitPullStats range ts (.response 200 text (some obj))
          = .ok (kitSuccessDict range ts obj))
    ∧ (∀ range (ts : Int),
        (kitSuccessDict range ts {}).getD "subscribers" = .vInt 0
        ∧ (kitSuccessDict range ts {}).getD "cancellations" = .vInt 0
        ∧ (kitSuccessDict range ts {}).getD "net_new_subscribers" = .vInt 0
        ∧ (kitSuccessDict range ts {}).getD "new_subscribers" = .vInt 0
        ∧ (kitSuccessDict range ts {}).hasKey "error" = false) := by
  exact ⟨fun u ts reset text a2 => rfl, fun range ts text obj => rfl,
    fun range ts => ⟨rfl, rfl, rfl, rfl, rfl⟩⟩

/- ### C10: the get_all_stats fallback shape -/

/-- C10.  If any of the three pulls raises (as the 429 path does), every one
of the three returned range dicts is the fallback containing ONLY the keys
"error" and "subscribers" (the latter "Not Found"); the per-pull keys
cancellations, net_new_subscribers, new_subscribers, platform, time_range
and timestamp are absent, so the downstream Kit-stats form mapping resolves
those fields to None while the subscribers fields resolve to "Not Found". -/
theorem claim_C10 :
    (∀ (ts : Int) a1 a2 a3 e, kitPullStats .daily ts a1 = .error e →
      kitGetAllStats ts a1 a2 a3
        = ((kitFallbackDict e, kitFallbackDict e, kitFallbackDict e),
           [.daily]))
    ∧ (∀ (ts : Int) a1 a2 a3 d e, kitPullStats .daily ts a1 = .ok d →
        kitPullStats .weekly ts a2 = .error e →
        kitGetAllStats ts a1 a2 a3
          = ((kitFallbackDict e, kitFallbackDict e, kitFallbackDict e),
             [.daily, .weekly]))
    ∧ (∀ (ts : Int) a1 a2 a3 d w e, kitPullStats .daily ts a1 = .ok d →
        kitPullStats .weekly ts a2 = .ok w →
        kitPullStats .monthly ts a3 = .error e →
        kitGetAllStats ts a1 a2 a3
          = ((kitFallbackDict e, kitFallbackDict e, kitFallbackDict e),
             [.daily, .weekly, .monthly]))
    ∧ (∀ range (ts : Int) text b,
        kitPullStats range ts (.response 429 text b)
          = .error (.rateLimit "Kit API rate limit exceeded"))
    ∧ (∀ e, (kitFallbackDict e).keys = ["error", "subscribers"]
        ∧ (kitFallbackDict e).getD "subscribers" = .vStr "Not Found"
        ∧ (kitFallbackDict e).hasKey "cancellations" = false
        ∧ (kitFallbackDict e).hasKey "net_new_subscribers" = false
        ∧ (kitFallbackDict e).hasKey "new_subscribers" = false
        ∧ (kitFallbackDict e).hasKey "platform" = false
        ∧ (kitFallbackDict e).hasKey "time_range" = false
        ∧ (kitFallbackDict e).hasKey "timestamp" = false)
    ∧ (∀ e,
        (kitStatsFormData (kitFallbackDict e) (kitFallbackDict e)
            (kitFallbackDict e)).getD "Cancellation" = .vNone
        ∧ (kitStatsFormData (kitFallbackDict e) (kitFallbackDict e)
            (kitFallbackDict e)).getD "Net New Subscribers" = .vNone
        ∧ (kitStatsFormData (kitFallbackDict e) (kitFallbackDict e)
            (kitFallbackDict e)).getD "New Subscribers" = .vNone
        ∧ (kitStatsFormData (kitFallbackDict e) (kitFallbackDict e)
            (kitFallbackDict e)).getD "Today\x27s Number of Subs"
            = .vStr "Not Found"
        ∧ (kitStatsFormData (kitFallbackDict e) (kitFallbackDict e)
            (kitFallbackDict e)).getD "Weekly Cancellations" = .vNone
        ∧ (kitStatsFormData (kitFallbackDict e) (kitFallbackDict e)
            (kitFallbackDict e)).getD "Monthly Cancellations" = .vNone) := by
  refine ⟨fun ts a1 a2 a3 e h => ?_, fun ts a1 a2 a3 d e h1 h2 => ?_,
    fun ts a1 a2 a3 d w e h1 h2 h3 => ?_, fun range ts text b => rfl,
    fun e => ⟨rfl, rfl, rfl, rfl, rfl, rfl, rfl, rfl⟩,
    fun e => ⟨rfl, rfl, rfl, rfl, rfl, rfl⟩⟩
  · unfold kitGetAllStats
    rw [h]
  · unfold kitGetAllStats
    rw [h1, h2]
  · unfold kitGetAllStats
    rw [h1, h2, h3]

/-- Witness for C10: a 500 response on the daily pull collapses all three
ranges to the two-key fallback dict. -/
theorem claim_C10_witness :
    kitGetAllStats 0 (.response 500 "oops" none) (.response 200 "" (some {}))
        (.response 200 "" (some {}))
      = ((kitFallbackDict (.api 500 "Kit API returned error: 500 - oops"),
          kitFallbackDict (.api 500 "Kit API returned error: 500 - oops"),
          kitFallbackDict (.api 500 "Kit API returned error: 500 - oops")),
         [.daily]) :=
  claim_C10.1 0 _ _ _ (.api 500 "Kit API returned error: 500 - oops") rfl
